import Mathlib

/-!
Shallow embedding of `src/main.rs` of the rustyx repository: a command-line
OAuth2 utility that loads a config, checks a cached refresh token, performs
one HTTP POST token exchange, optionally persists a returned refresh token,
and is supposed to print the access token.

External effects (environment variables, filesystem, network, console) are
modelled by an oracle structure `World`; each Rust function becomes a pure
Lean function over it.  The run of `fn main` becomes `mainRun : World →
RunResult`, recording the stdout chunks, stderr lines, the cache file's
contents after the run, the form parameters of the token request (when one
was made), and how the run terminated.

Two places in the source need care:

1. In `parse_response` (main.rs lines 22-32) the match arm
   `Ok(parsed) => parsed` forces Rust type inference to elaborate
   `serde_json::from_str::<Result<Value, String>>(&buf)`: the body is
   deserialized as a serde externally-tagged `Result`, i.e. a JSON object
   with exactly one key `Ok` (whose value becomes the parsed `Value`) or
   exactly one key `Err` (whose value must be a JSON string and becomes the
   returned error).  Any other JSON value fails with a
   `Could not parse json` error.  `deserializeResult` models this.

2. The last two statements of `fn main` (main.rs lines 203-204) print a
   variable `response` that is not in scope anywhere in `main` (the crate
   does not compile; the `RemoteFile::from_remote_folder` body is also
   syntactically broken).  No statement of `main` prints the access token.
   The model marks reaching that point with `Outcome.reachedTail`, carrying
   the access token the program holds there, and emits no further stdout.
-/

namespace Rustyx

/-- Constant `CACHE_NAME` (main.rs line 13). -/
def CACHE_NAME : String := "rustyx"

/-- Constant `CONFIG_LOCATION` (main.rs line 14). -/
def CONFIG_LOCATION : String := "config.json"

/-- Struct `Config` (main.rs lines 16-20). -/
structure Config where
  client_id : String
  client_secret : String
deriving DecidableEq

/-- JSON values as produced by serde_json parsing (objects keep their fields
as an association list; serde_json collapses duplicate keys at parse time, so
lookups below take the first occurrence). -/
inductive Json where
  | null
  | bool (b : Bool)
  | num (n : Int)
  | str (s : String)
  | arr (elems : List Json)
  | obj (fields : List (String × Json))

/-- Field lookup on an association list of JSON object fields. -/
def lookupField : List (String × Json) → String → Option Json
  | [], _ => none
  | (k, v) :: rest, key => if k = key then some v else lookupField rest key

/-- Method `Value::get(key)` of serde_json: field lookup on an object, `none`
on any other JSON value. -/
def Json.get : Json → String → Option Json
  | .obj fields, key => lookupField fields key
  | _, _ => none

/-- Function `extract_value` (main.rs lines 34-39): a JSON string yields its
contents, everything else yields `None`. -/
def extract_value : Json → Option String
  | .str s => some s
  | _ => none

/-- Deserialization of a JSON value at type `Result<Value, String>`, which is
what `serde_json::from_str` in `parse_response` elaborates to (the match arm
`Ok(parsed) => parsed` makes `parsed` have the function's return type
`Result<Value, String>`).  Serde's externally-tagged representation accepts
exactly a one-field object `\x7b"Ok": v\x7d` (giving `Ok v`) or
`\x7b"Err": s\x7d` with `s` a JSON string (giving `Err s`); every other JSON
value is a deserialization error (`none` here). -/
def deserializeResult : Json → Option (Except String Json)
  | .obj [(k, v)] =>
      if k = "Ok" then some (.ok v)
      else if k = "Err" then
        match v with
        | .str s => some (.error s)
        | _ => none
      else none
  | _ => none

/-- Oracle model of the HTTP response handed to `parse_response`:
`readErr` is `some msg` when `response.read_to_string` fails with `msg`;
otherwise `bodyJson` is the outcome of JSON-parsing the body text
(`none` when the text is not well-formed JSON) and `serdeErrMsg` is the
serde error text used in the `Could not parse json` message when
deserialization fails. -/
structure ResponseModel where
  readErr : Option String
  bodyJson : Option Json
  serdeErrMsg : String

/-- Function `parse_response` (main.rs lines 22-32).  A read failure returns
its message; a failure of `from_str::<Result<Value, String>>` (malformed
JSON, or well-formed JSON that is not a serde `Result`) returns the
`Could not parse json` message; a successful deserialization returns the
deserialized `Result` itself (so a body `\x7b"Err": s\x7d` makes
`parse_response` return `Err(s)`). -/
def parse_response (r : ResponseModel) : Except String Json :=
  match r.readErr with
  | some msg => .error msg
  | none =>
    match r.bodyJson with
    | none => .error ("Could not parse json: " ++ r.serdeErrMsg)
    | some j =>
      match deserializeResult j with
      | none => .error ("Could not parse json: " ++ r.serdeErrMsg)
      | some res => res

/-- Outcome of `Client::new().post(..).form(&params).send().and_then(|x|
x.error_for_status())` in `tokens_from_params`: a transport failure in
`send`, a non-success HTTP status turned into an error by
`error_for_status`, or a success-status response. -/
inductive NetOutcome where
  | sendErr (msg : String)
  | statusErr (msg : String)
  | success (resp : ResponseModel)

/-- Function `tokens_from_params` (main.rs lines 77-97), with the network
modelled as an oracle from the form parameters to a `NetOutcome`.  Both
transport failures and non-success statuses produce the
`Could not get the response` error (main.rs line 85); otherwise the parsed
value's `access_token` field must be a string, and the optional
`refresh_token` field is taken when it is a string. -/
def tokens_from_params (net : List (String × String) → NetOutcome)
    (params : List (String × String)) : Except String (String × Option String) :=
  match net params with
  | .sendErr err => .error ("Could not get the response: " ++ err)
  | .statusErr err => .error ("Could not get the response: " ++ err)
  | .success resp =>
    match parse_response resp with
    | .error e => .error e
    | .ok parsed =>
      match (parsed.get "access_token").bind extract_value,
            (parsed.get "refresh_token").bind extract_value with
      | some access_token, refresh_token => .ok (access_token, refresh_token)
      | none, _ => .error "Could not get tokens from the request"

/-- Oracle for one run of the program: the outcomes of every external
effect the code can perform.  `configFile` is the combined result of
`fs::read_to_string(CONFIG_LOCATION)` and the serde parse of `Config`
(main.rs lines 168-170 collapse both failures with `map_err(|_| ())`).
`home` is `env::var("HOME")` with the error's display string.
`createDir` is `fs::create_dir_all` on the cache directory.
`cacheContents` is the cache file's contents before the run (`none` when the
file is absent); `readOk` tells whether `fs::read_to_string` on it succeeds
(reading fails when the file is absent, and may fail for a present file,
e.g. permissions or invalid UTF-8), failing with `readErrMsg`.
`writeOk`/`writeErrMsg` model `fs::write` on the cache file.
`net` is the token-endpoint POST.  `flushOk` models
`io::stdout().flush()` and `stdinLine` models `read_line` (`none` = error). -/
structure World where
  configFile : Option Config
  home : Except String String
  createDir : Except String Unit
  cacheContents : Option String
  readOk : Bool
  readErrMsg : String
  writeOk : Bool
  writeErrMsg : String
  net : List (String × String) → NetOutcome
  flushOk : Bool
  stdinLine : Option String

/-- Function `cache_file` (main.rs lines 41-53): read `HOME`, build the path
`home/.cache/CACHE_NAME` (modelled as its list of components), create the
directories, and return the path `home/.cache/CACHE_NAME/CACHE_NAME`; both
the missing-variable and the directory-creation errors are returned as
strings. -/
def cache_file (w : World) : Except String (List String) :=
  match w.home with
  | .error e => .error e
  | .ok home =>
    match w.createDir with
    | .ok _ => .ok [home, ".cache", CACHE_NAME, CACHE_NAME]
    | .error e => .error e

/-- Outcome of `fs::read_to_string` on the cache file: the exact contents
when the file is present and readable, an error otherwise. -/
def read_cache (w : World) : Except String String :=
  match w.cacheContents, w.readOk with
  | some s, true => .ok s
  | some _, false => .error w.readErrMsg
  | none, _ => .error w.readErrMsg

/-- Function `load_refresh_token` (main.rs lines 55-60): a `cache_file`
failure yields `None`; otherwise `fs::read_to_string(path).ok()`. -/
def load_refresh_token (w : World) : Option String :=
  match cache_file w with
  | .ok _ => (read_cache w).toOption
  | .error _ => none

/-- Outcome of `fs::write` on the cache file with the refresh token as
contents. -/
def write_cache (w : World) : Except String Unit :=
  match w.writeOk with
  | true => .ok ()
  | false => .error w.writeErrMsg

/-- Function `save_refresh_token` (main.rs lines 62-67): a `cache_file`
failure is propagated by `?`; otherwise `fs::write` either succeeds or its
error is returned as a string. -/
def save_refresh_token (w : World) (refresh_token : String) : Except String Unit :=
  match cache_file w with
  | .error e => .error e
  | .ok _ =>
    match write_cache w with
    | .ok _ => .ok ()
    | .error error => .error error

/-- The stdout chunk emitted by `print!("\x7b\x7d: ", msg)` in `prompt`. -/
def prompt_output (msg : String) : String := msg ++ ": "

/-- Function `prompt` (main.rs lines 69-75), result part: after printing the
prompt chunk, `flush().unwrap()` and `read_line(..).unwrap()` panic on
failure (modelled as `none`); on success the read line is trimmed. -/
def prompt (w : World) : Option String :=
  if w.flushOk then
    match w.stdinLine with
    | some input => some input.trim
    | none => none
  else none

/-- The authorization URL printed by `authorize_by_code`
(main.rs lines 103-108). -/
def authorization_url (client_id : String) : String :=
  "https://www.dropbox.com/oauth2/authorize?client_id=" ++ client_id ++
    "&token_access_type=offline&response_type=code"

/-- What one of the two `authorize_by_*` functions did: either `prompt`
panicked on an `unwrap` (stdout chunks emitted so far recorded), or a token
request was made with the recorded form parameters and result. -/
inductive AuthStep where
  | panicked (out : List String)
  | exchanged (out : List String) (request : List (String × String))
      (result : Except String (String × Option String))

/-- The form parameters inserted into the `HashMap` by `authorize_by_code`
(main.rs lines 112-116), modelled as the association list of the inserted
pairs (all four keys are distinct, so map and list lookups agree). -/
def code_params (auth_code client_id client_secret : String) : List (String × String) :=
  [("code", auth_code), ("client_id", client_id), ("client_secret", client_secret),
   ("grant_type", "authorization_code")]

/-- The form parameters inserted into the `HashMap` by
`authorize_by_refresh_token` (main.rs lines 126-130). -/
def refresh_params (refresh_token client_id client_secret : String) :
    List (String × String) :=
  [("refresh_token", refresh_token), ("grant_type", "refresh_token"),
   ("client_id", client_id), ("client_secret", client_secret)]

/-- Function `authorize_by_code` (main.rs lines 99-118): print the
authorization URL, prompt for the code (panic possible), then POST with the
`code`, `client_id`, `client_secret` and `grant_type=authorization_code`
parameters. -/
def authorize_by_code (w : World) (client_id client_secret : String) : AuthStep :=
  match prompt w with
  | none => .panicked [authorization_url client_id, prompt_output "Authorization code"]
  | some auth_code =>
    .exchanged [authorization_url client_id, prompt_output "Authorization code"]
      (code_params auth_code client_id client_secret)
      (tokens_from_params w.net (code_params auth_code client_id client_secret))

/-- Function `authorize_by_refresh_token` (main.rs lines 120-132): print the
notice, then POST with the `refresh_token`, `grant_type=refresh_token`,
`client_id` and `client_secret` parameters. -/
def authorize_by_refresh_token (w : World) (refresh_token client_id client_secret : String) :
    AuthStep :=
  .exchanged ["Using the refresh token to authenticate..."]
    (refresh_params refresh_token client_id client_secret)
    (tokens_from_params w.net (refresh_params refresh_token client_id client_secret))

/-- How a run of `main` terminated. -/
inductive Outcome where
  | configError
  | panicked
  | exchangeError (msg : String)
  | saveError (msg : String)
  | reachedTail (access_token : String)
deriving DecidableEq

/-- Observable result of a run of `main`: stdout chunks, stderr lines, the
cache file's contents after the run, the token request's form parameters
when a request was made, and the terminal outcome. -/
structure RunResult where
  stdout : List String
  stderr : List String
  cacheAfter : Option String
  request : Option (List (String × String))
  outcome : Outcome
deriving DecidableEq

/-- Lines 188-205 of `main`: match on the exchange result (an error is
printed to stderr and the run returns); on success, a returned refresh token
is saved, a save error is printed to stderr and the run returns; then
control reaches the final two statements, which print a variable `response`
that is not in scope (the crate does not compile) — modelled as
`Outcome.reachedTail` with no further output. -/
def mainTail (w : World) (out : List String) (request : List (String × String))
    (result : Except String (String × Option String)) : RunResult :=
  match result with
  | .error error => ⟨out, [error], w.cacheContents, some request, .exchangeError error⟩
  | .ok (access_token, refresh_token) =>
    match refresh_token with
    | some refresh_token =>
      match save_refresh_token w refresh_token with
      | .error error => ⟨out, [error], w.cacheContents, some request, .saveError error⟩
      | .ok _ => ⟨out, [], some refresh_token, some request, .reachedTail access_token⟩
    | none => ⟨out, [], w.cacheContents, some request, .reachedTail access_token⟩

/-- Function `main` (main.rs lines 167-205): parse the config (any failure
prints the fixed message to stderr and returns); select the authorization
path on the presence of a cached refresh token (lines 181-186); then run the
common tail. -/
def mainRun (w : World) : RunResult :=
  match w.configFile with
  | none => ⟨[], ["Could not parse the configuration file"], w.cacheContents, none, .configError⟩
  | some config =>
    match (match load_refresh_token w with
           | some refresh_token =>
             authorize_by_refresh_token w refresh_token config.client_id config.client_secret
           | none => authorize_by_code w config.client_id config.client_secret) with
    | .panicked out => ⟨out, [], w.cacheContents, none, .panicked⟩
    | .exchanged out request result => mainTail w out request result

/-! Helper lemmas characterizing the runs of `main`. -/

/-- The common tail of `main` always records the request it was given. -/
lemma mainTail_request (w : World) (out : List String) (req : List (String × String))
    (res : Except String (String × Option String)) :
    (mainTail w out req res).request = some req := by
  rcases res with e | ⟨a, rt⟩
  · rfl
  · rcases rt with _ | r
    · rfl
    · rcases h : save_refresh_token w r with e | u <;> simp [mainTail, h]

/-- The common tail of `main` emits no stdout beyond what it was handed. -/
lemma mainTail_stdout (w : World) (out : List String) (req : List (String × String))
    (res : Except String (String × Option String)) :
    (mainTail w out req res).stdout = out := by
  rcases res with e | ⟨a, rt⟩
  · rfl
  · rcases rt with _ | r
    · rfl
    · rcases h : save_refresh_token w r with e | u <;> simp [mainTail, h]

/-- Run characterization, refresh path: with a parsed config and a cached
token, `main` is the common tail after `authorize_by_refresh_token`. -/
lemma mainRun_refresh (w : World) (config : Config) (t : String)
    (hc : w.configFile = some config) (hl : load_refresh_token w = some t) :
    mainRun w = mainTail w ["Using the refresh token to authenticate..."]
      (refresh_params t config.client_id config.client_secret)
      (tokens_from_params w.net
        (refresh_params t config.client_id config.client_secret)) := by
  unfold mainRun
  rw [hc, hl]
  rfl

/-- Run characterization, code path with a prompt panic. -/
lemma mainRun_code_panic (w : World) (config : Config)
    (hc : w.configFile = some config) (hl : load_refresh_token w = none)
    (hp : prompt w = none) :
    mainRun w = ⟨[authorization_url config.client_id, prompt_output "Authorization code"],
      [], w.cacheContents, none, .panicked⟩ := by
  unfold mainRun authorize_by_code
  rw [hc, hl, hp]

/-- Run characterization, code path with a successful prompt. -/
lemma mainRun_code_prompt (w : World) (config : Config) (code : String)
    (hc : w.configFile = some config) (hl : load_refresh_token w = none)
    (hp : prompt w = some code) :
    mainRun w = mainTail w
      [authorization_url config.client_id, prompt_output "Authorization code"]
      (code_params code config.client_id config.client_secret)
      (tokens_from_params w.net
        (code_params code config.client_id config.client_secret)) := by
  unfold mainRun authorize_by_code
  rw [hc, hl, hp]

/-- A recorded request determines the rest of the run: the run is the common
tail on that request's exchange result. -/
lemma request_inversion (w : World) (ps : List (String × String))
    (h : (mainRun w).request = some ps) :
    ∃ out, mainRun w = mainTail w out ps (tokens_from_params w.net ps) := by
  cases hc : w.configFile with
  | none =>
    unfold mainRun at h
    rw [hc] at h
    simp at h
  | some config =>
    cases hl : load_refresh_token w with
    | some t =>
      have he := mainRun_refresh w config t hc hl
      rw [he, mainTail_request] at h
      obtain rfl := Option.some.inj h
      exact ⟨_, he⟩
    | none =>
      cases hp : prompt w with
      | none =>
        rw [mainRun_code_panic w config hc hl hp] at h
        simp at h
      | some code =>
        have he := mainRun_code_prompt w config code hc hl hp
        rw [he, mainTail_request] at h
        obtain rfl := Option.some.inj h
        exact ⟨_, he⟩

/-- A non-success status makes `tokens_from_params` fail with the
`Could not get the response` message. -/
lemma tokens_error_of_statusErr (net : List (String × String) → NetOutcome)
    (ps : List (String × String)) (m : String) (h : net ps = .statusErr m) :
    tokens_from_params net ps = .error ("Could not get the response: " ++ m) := by
  unfold tokens_from_params
  rw [h]

/-- A body that is not well-formed JSON makes `tokens_from_params` fail with
the `Could not parse json` message. -/
lemma tokens_error_of_malformed (net : List (String × String) → NetOutcome)
    (ps : List (String × String)) (r : ResponseModel) (h : net ps = .success r)
    (h1 : r.readErr = none) (h2 : r.bodyJson = none) :
    tokens_from_params net ps =
      .error ("Could not parse json: " ++ r.serdeErrMsg) := by
  simp [tokens_from_params, parse_response, h, h1, h2]

/-- A prompt that panicked did so on a console failure: either the stdout
flush or the stdin read failed. -/
lemma prompt_none (w : World) (h : prompt w = none) :
    w.flushOk = false ∨ w.stdinLine = none := by
  unfold prompt at h
  cases hf : w.flushOk with
  | false => exact .inl rfl
  | true =>
    rw [hf] at h
    cases hs : w.stdinLine with
    | none => exact .inr rfl
    | some s =>
      rw [hs] at h
      simp at h

/-! Concrete oracle worlds used by witnesses and counterexamples. -/

/-- A response body of the shape `parse_response` actually accepts: the
serde `Result` wrapper around a token object carrying both tokens. -/
def okBody : Json :=
  .obj [("Ok", .obj [("access_token", .str "at"), ("refresh_token", .str "new-rt")])]

/-- A run in which everything succeeds: config parses, `HOME` is set, the
cache directory exists, the cache file holds the token `rt`, the exchange
returns access token `at` and refresh token `new-rt`, and the write
succeeds. -/
def baseWorld : World where
  configFile := some ⟨"id", "secret"⟩
  home := .ok "/home/user"
  createDir := .ok ()
  cacheContents := some "rt"
  readOk := true
  readErrMsg := "read error"
  writeOk := true
  writeErrMsg := "write error"
  net := fun _ => .success ⟨none, some okBody, "serde error"⟩
  flushOk := true
  stdinLine := some "thecode"

/-! Claim theorems. -/

/-- C1: the claim says every run with a successful exchange (and successful
persist) prints the returned access token to stdout.  The code does not: the
final two statements of `main` (main.rs lines 203-204) print a variable
`response` that is not in scope anywhere in `main` — the crate does not
compile, and no statement of `main` prints the access token.  This theorem
evaluates the embedded run on a fully successful input: the exchange
succeeds with access token `at`, the new refresh token is persisted, and the
entire stdout of the run is the refresh-path notice — the access token is
never printed. -/
theorem c1_successful_run_never_prints_access_token :
    (mainRun baseWorld).outcome = .reachedTail "at" ∧
    (mainRun baseWorld).cacheAfter = some "new-rt" ∧
    (mainRun baseWorld).stdout = ["Using the refresh token to authenticate..."] ∧
    "at" ∉ (mainRun baseWorld).stdout :=
  ⟨rfl, rfl, rfl, by decide⟩

/-- C2: with a parsed config, if loading the cached refresh token yields a
token, the run performs the exchange with `grant_type=refresh_token` and
that very token; if it yields nothing, the run prints the authorization URL
and the interactive prompt, and any exchange it performs carries
`grant_type=authorization_code` and the code read from the prompt.  The
statement quantifies over every oracle world, so nothing besides the
presence or absence of the cached token selects between the two paths. -/
theorem c2_cached_token_presence_selects_grant (w : World) (config : Config)
    (hc : w.configFile = some config) :
    (∀ t, load_refresh_token w = some t →
      ∃ ps, (mainRun w).request = some ps ∧
        List.lookup "grant_type" ps = some "refresh_token" ∧
        List.lookup "refresh_token" ps = some t) ∧
    (load_refresh_token w = none →
      (mainRun w).stdout =
        [authorization_url config.client_id, prompt_output "Authorization code"] ∧
      ∀ ps, (mainRun w).request = some ps →
        List.lookup "grant_type" ps = some "authorization_code" ∧
        ∃ c, prompt w = some c ∧ List.lookup "code" ps = some c) := by
  constructor
  · intro t hl
    refine ⟨refresh_params t config.client_id config.client_secret, ?_, ?_, ?_⟩
    · rw [mainRun_refresh w config t hc hl, mainTail_request]
    · rfl
    · rfl
  · intro hl
    cases hp : prompt w with
    | none =>
      rw [mainRun_code_panic w config hc hl hp]
      exact ⟨rfl, by intro ps h; exact absurd h (by simp)⟩
    | some code =>
      rw [mainRun_code_prompt w config code hc hl hp]
      refine ⟨mainTail_stdout _ _ _ _, ?_⟩
      intro ps h
      rw [mainTail_request] at h
      obtain rfl := Option.some.inj h
      exact ⟨rfl, code, rfl, rfl⟩

/-- C2 witness: on the concrete successful world, whose cache file holds
`rt`, the run requests a `refresh_token` grant carrying `rt`. -/
theorem c2_witness :
    ∃ ps, (mainRun baseWorld).request = some ps ∧
      List.lookup "grant_type" ps = some "refresh_token" ∧
      List.lookup "refresh_token" ps = some "rt" :=
  (c2_cached_token_presence_selects_grant baseWorld ⟨"id", "secret"⟩ rfl).1 "rt" rfl

/-- C3: whenever the run made a token request and the response either has a
non-success HTTP status (`error_for_status` turns it into an error) or a
body that is not well-formed JSON, the run prints exactly one error line to
stderr, terminates with an exchange error, and the cache file's contents
after the run are its contents before it. -/
theorem c3_error_aborts_without_cache_mutation (w : World)
    (ps : List (String × String)) (hreq : (mainRun w).request = some ps)
    (herr : (∃ m, w.net ps = .statusErr m) ∨
      ∃ r, w.net ps = .success r ∧ r.readErr = none ∧ r.bodyJson = none) :
    (∃ m, (mainRun w).stderr = [m] ∧ (mainRun w).outcome = .exchangeError m) ∧
    (mainRun w).cacheAfter = w.cacheContents := by
  obtain ⟨out, he⟩ := request_inversion w ps hreq
  have htfp : ∃ m, tokens_from_params w.net ps = .error m := by
    rcases herr with ⟨m, hm⟩ | ⟨r, hr, h1, h2⟩
    · exact ⟨_, tokens_error_of_statusErr _ _ _ hm⟩
    · exact ⟨_, tokens_error_of_malformed _ _ _ hr h1 h2⟩
  obtain ⟨m, hm⟩ := htfp
  rw [he, hm]
  exact ⟨⟨m, rfl, rfl⟩, rfl⟩

/-- A run identical to the successful one except that the token endpoint
answers with a non-success HTTP status. -/
def statusErrWorld : World :=
  { baseWorld with net := fun _ => .statusErr "HTTP status client error (409 Conflict)" }

/-- C3 witness: on the concrete world whose exchange answers with a
non-success status, the run aborts with one stderr line and the cache file
keeps its prior contents. -/
theorem c3_witness :
    (∃ m, (mainRun statusErrWorld).stderr = [m] ∧
      (mainRun statusErrWorld).outcome = .exchangeError m) ∧
    (mainRun statusErrWorld).cacheAfter = statusErrWorld.cacheContents :=
  c3_error_aborts_without_cache_mutation statusErrWorld
    (refresh_params "rt" "id" "secret") rfl (.inl ⟨_, rfl⟩)

/-- A run identical to the successful one except that the cache file holds
`old` and the write to the cache file fails. -/
def failingWriteWorld : World :=
  { baseWorld with cacheContents := some "old", writeOk := false }

/-- C4 counterexample: the claim says that after every successful token
exchange whose response carries a `refresh_token` string, the cache file
holds exactly that string.  On this input the exchange succeeds and the
response carries the refresh token `new-rt`, yet the write to the cache file
fails, so the cache file afterwards still holds `old` — the claim as stated
is false. -/
theorem c4_counterexample :
    (mainRun failingWriteWorld).request = some (refresh_params "old" "id" "secret") ∧
    tokens_from_params failingWriteWorld.net (refresh_params "old" "id" "secret") =
      .ok ("at", some "new-rt") ∧
    (mainRun failingWriteWorld).cacheAfter = some "old" ∧
    (mainRun failingWriteWorld).cacheAfter ≠ some "new-rt" :=
  ⟨rfl, rfl, rfl, by decide⟩

/-- C4 amended: after a successful token exchange, if the response carries a
`refresh_token` string and saving it succeeds (the cache path resolves and
the write succeeds), the cache file afterwards holds exactly that string;
if the response carries no `refresh_token`, the cache file is unchanged. -/
theorem c4_success_updates_cache_when_save_succeeds (w : World)
    (ps : List (String × String)) (atk : String) (ort : Option String)
    (hreq : (mainRun w).request = some ps)
    (hok : tokens_from_params w.net ps = .ok (atk, ort)) :
    (∀ rt, ort = some rt → save_refresh_token w rt = .ok () →
      (mainRun w).cacheAfter = some rt) ∧
    (ort = none → (mainRun w).cacheAfter = w.cacheContents) := by
  obtain ⟨out, he⟩ := request_inversion w ps hreq
  constructor
  · intro rt h1 h2
    subst h1
    rw [he]
    simp [mainTail, hok, h2]
  · intro h1
    subst h1
    rw [he, hok]
    rfl

/-- C4 witness: on the concrete successful world the returned refresh token
`new-rt` is the cache file's entire contents after the run. -/
theorem c4_witness : (mainRun baseWorld).cacheAfter = some "new-rt" :=
  (c4_success_updates_cache_when_save_succeeds baseWorld
    (refresh_params "rt" "id" "secret") "at" (some "new-rt") rfl rfl).1 "new-rt" rfl rfl

/-- C5: with a parsed config, if resolving the cache file path fails (`HOME`
unset or directory creation failing) or reading the cache file fails,
loading the cached refresh token yields nothing and the run proceeds on the
authorization-code path, printing the authorization URL and the interactive
prompt; the load failure itself aborts nothing. -/
theorem c5_load_failure_is_nonfatal (w : World) (config : Config)
    (hc : w.configFile = some config)
    (hfail : (∃ e, cache_file w = .error e) ∨ ∃ e, read_cache w = .error e) :
    load_refresh_token w = none ∧
    (mainRun w).stdout =
      [authorization_url config.client_id, prompt_output "Authorization code"] := by
  have hl : load_refresh_token w = none := by
    unfold load_refresh_token
    rcases hfail with ⟨e, he⟩ | ⟨e, he⟩
    · rw [he]
    · cases hcf : cache_file w with
      | error e2 => rfl
      | ok p =>
        show (read_cache w).toOption = none
        rw [he]
        rfl
  refine ⟨hl, ?_⟩
  cases hp : prompt w with
  | none => rw [mainRun_code_panic w config hc hl hp]
  | some code => rw [mainRun_code_prompt w config code hc hl hp, mainTail_stdout]

/-- A run identical to the successful one except that `HOME` is unset. -/
def noHomeWorld : World :=
  { baseWorld with home := .error "environment variable not found" }

/-- C5 witness: with `HOME` unset, the load yields nothing and the run
proceeds to print the authorization URL and the prompt. -/
theorem c5_witness :
    load_refresh_token noHomeWorld = none ∧
    (mainRun noHomeWorld).stdout =
      [authorization_url "id", prompt_output "Authorization code"] :=
  c5_load_failure_is_nonfatal noHomeWorld ⟨"id", "secret"⟩ rfl
    (.inl ⟨"environment variable not found", rfl⟩)

/-- A well-formed JSON response body of the shape the provider actually
sends: a plain object with an `access_token` string field. -/
def plainTokenBody : Json := .obj [("access_token", .str "a")]

/-- A network oracle answering with success status and the plain token
body. -/
def plainTokenNet : List (String × String) → NetOutcome :=
  fun _ => .success ⟨none, some plainTokenBody,
    "unknown variant access_token, expected one of Ok, Err"⟩

/-- C6: the claim says that for every well-formed JSON body the exchange
succeeds iff the object has an `access_token` string field.  In the code,
the match arm `Ok(parsed) => parsed` in `parse_response` makes
`serde_json::from_str` deserialize the body at type
`Result<Value, String>`, so a plain token object — well-formed JSON whose
`access_token` field is the string `a` — is rejected with a
`Could not parse json` error and the exchange fails.  (Only bodies wrapped
as a one-field `Ok`/`Err` object get through.) -/
theorem c6_wellformed_access_token_body_rejected :
    (plainTokenBody.get "access_token").bind extract_value = some "a" ∧
    tokens_from_params plainTokenNet (refresh_params "rt" "id" "secret") =
      .error ("Could not parse json: unknown variant access_token, expected one of Ok, Err") :=
  ⟨rfl, rfl⟩

/-- The common tail of `main` never config-errors or panics, and on each of
its terminal outcomes the stderr output is as the spec describes: the error
message alone on a failure, nothing on success. -/
lemma mainTail_stderr (w : World) (out : List String) (req : List (String × String))
    (res : Except String (String × Option String)) :
    ((mainTail w out req res).outcome ≠ .configError) ∧
    ((mainTail w out req res).outcome ≠ .panicked) ∧
    (∀ m, (mainTail w out req res).outcome = .exchangeError m →
      (mainTail w out req res).stderr = [m]) ∧
    (∀ m, (mainTail w out req res).outcome = .saveError m →
      (mainTail w out req res).stderr = [m]) ∧
    (∀ a, (mainTail w out req res).outcome = .reachedTail a →
      (mainTail w out req res).stderr = []) := by
  rcases res with e | ⟨a, rt⟩
  · simp [mainTail]
  · rcases rt with _ | r
    · simp [mainTail]
    · rcases h : save_refresh_token w r with e | u <;> simp [mainTail, h]

/-- A run identical to the successful one except that the cache file is
absent (forcing the authorization-code path) and the stdin read fails. -/
def panicWorld : World :=
  { baseWorld with cacheContents := none, stdinLine := none }

/-- C7 counterexample: the claim says every failure, including console I/O
failures during the prompt, is converted to a string and printed to standard
error.  On this input the stdin read fails during the prompt: `prompt`
calls `.unwrap()`, the program panics, and nothing is printed to stderr —
the claim as stated is false. -/
theorem c7_counterexample :
    (mainRun panicWorld).outcome = .panicked ∧ (mainRun panicWorld).stderr = [] :=
  ⟨rfl, rfl⟩

/-- C7 amended: every failure except a console I/O failure during the
interactive prompt (missing or malformed config, exchange failure, save
failure) is converted to a string message and printed to standard error,
after which the run terminates; a console I/O failure during the prompt
(flush or read) instead panics via `unwrap`, printing nothing to stderr;
and a run that gets past the save prints nothing to stderr. -/
theorem c7_failures_print_to_stderr_except_prompt_panic (w : World) :
    ((mainRun w).outcome = .configError →
      (mainRun w).stderr = ["Could not parse the configuration file"]) ∧
    (∀ m, (mainRun w).outcome = .exchangeError m → (mainRun w).stderr = [m]) ∧
    (∀ m, (mainRun w).outcome = .saveError m → (mainRun w).stderr = [m]) ∧
    ((mainRun w).outcome = .panicked →
      (mainRun w).stderr = [] ∧ (w.flushOk = false ∨ w.stdinLine = none)) ∧
    (∀ a, (mainRun w).outcome = .reachedTail a → (mainRun w).stderr = []) := by
  cases hc : w.configFile with
  | none =>
    have he : mainRun w = ⟨[], ["Could not parse the configuration file"],
        w.cacheContents, none, .configError⟩ := by
      unfold mainRun
      rw [hc]
    rw [he]
    exact ⟨fun _ => rfl, by simp, by simp, by simp, by simp⟩
  | some config =>
    cases hl : load_refresh_token w with
    | some t =>
      rw [mainRun_refresh w config t hc hl]
      have h := mainTail_stderr w ["Using the refresh token to authenticate..."]
        (refresh_params t config.client_id config.client_secret)
        (tokens_from_params w.net (refresh_params t config.client_id config.client_secret))
      exact ⟨fun hcon => absurd hcon h.1, h.2.2.1, h.2.2.2.1,
        fun hcon => absurd hcon h.2.1, h.2.2.2.2⟩
    | none =>
      cases hp : prompt w with
      | none =>
        rw [mainRun_code_panic w config hc hl hp]
        exact ⟨by simp, by simp, by simp, fun _ => ⟨rfl, prompt_none w hp⟩, by simp⟩
      | some code =>
        rw [mainRun_code_prompt w config code hc hl hp]
        have h := mainTail_stderr w
          [authorization_url config.client_id, prompt_output "Authorization code"]
          (code_params code config.client_id config.client_secret)
          (tokens_from_params w.net (code_params code config.client_id config.client_secret))
        exact ⟨fun hcon => absurd hcon h.1, h.2.2.1, h.2.2.2.1,
          fun hcon => absurd hcon h.2.1, h.2.2.2.2⟩

/-- C7 witness: on the concrete panicking world the run printed nothing to
stderr and the panic indeed came from a console failure. -/
theorem c7_witness :
    (mainRun panicWorld).stderr = [] ∧
    (panicWorld.flushOk = false ∨ panicWorld.stdinLine = none) :=
  (c7_failures_print_to_stderr_except_prompt_panic panicWorld).2.2.2.1 rfl

/-- C8: whenever `HOME` is set (and the cache directory can be created, so
that a path is produced at all), the cache file path is exactly
`$HOME/.cache/rustyx/rustyx` — the fixed app name `rustyx` appears as both
the subdirectory and the file name; loading goes through that very path to
read the file, and after a successful exchange returning a refresh token,
a successful save leaves the raw token string as the file's entire
contents. -/
theorem c8_cache_path_and_raw_contents (w : World) (home : String)
    (hh : w.home = .ok home) (hd : w.createDir = .ok ()) :
    cache_file w = .ok [home, ".cache", CACHE_NAME, CACHE_NAME] ∧
    CACHE_NAME = "rustyx" ∧
    load_refresh_token w = (read_cache w).toOption ∧
    (w.writeOk = true → ∀ t, save_refresh_token w t = .ok ()) ∧
    (∀ ps atk rt, (mainRun w).request = some ps →
      tokens_from_params w.net ps = .ok (atk, some rt) → w.writeOk = true →
      (mainRun w).cacheAfter = some rt) := by
  have hcf : cache_file w = .ok [home, ".cache", CACHE_NAME, CACHE_NAME] := by
    unfold cache_file
    rw [hh, hd]
  refine ⟨hcf, rfl, ?_, ?_, ?_⟩
  · unfold load_refresh_token
    rw [hcf]
  · intro hw t
    unfold save_refresh_token write_cache
    rw [hcf, hw]
  · intro ps atk rt hreq hok hw
    have hsave : save_refresh_token w rt = .ok () := by
      unfold save_refresh_token write_cache
      rw [hcf, hw]
    obtain ⟨out, he⟩ := request_inversion w ps hreq
    rw [he]
    simp [mainTail, hok, hsave]

/-- C8 witness: on the concrete successful world, whose `HOME` is
`/home/user`, the cache file path is `/home/user/.cache/rustyx/rustyx` and
the run leaves the returned refresh token as the file's contents. -/
theorem c8_witness :
    cache_file baseWorld = .ok ["/home/user", ".cache", "rustyx", "rustyx"] ∧
    (mainRun baseWorld).cacheAfter = some "new-rt" :=
  ⟨(c8_cache_path_and_raw_contents baseWorld "/home/user" rfl rfl).1,
   (c8_cache_path_and_raw_contents baseWorld "/home/user" rfl rfl).2.2.2.2
     (refresh_params "rt" "id" "secret") "at" "new-rt" rfl rfl rfl⟩

/-- C9: whenever the cache path resolves and the cache file is readable with
contents `s` — in particular the empty string for a zero-byte file — the
load yields exactly `s`, with no trimming or validation, and the run takes
the refresh-token grant path carrying `s` as the `refresh_token`
parameter. -/
theorem c9_loaded_token_is_exact_file_contents (w : World) (config : Config)
    (s : String) (hc : w.configFile = some config)
    (hcf : ∃ p, cache_file w = .ok p)
    (hcontents : w.cacheContents = some s) (hread : w.readOk = true) :
    load_refresh_token w = some s ∧
    ∃ ps, (mainRun w).request = some ps ∧
      List.lookup "grant_type" ps = some "refresh_token" ∧
      List.lookup "refresh_token" ps = some s := by
  obtain ⟨p, hp⟩ := hcf
  have hl : load_refresh_token w = some s := by
    unfold load_refresh_token
    rw [hp]
    show (read_cache w).toOption = some s
    unfold read_cache
    rw [hcontents, hread]
    rfl
  refine ⟨hl, refresh_params s config.client_id config.client_secret, ?_, rfl, rfl⟩
  rw [mainRun_refresh w config s hc hl, mainTail_request]

/-- A run identical to the successful one except that the cache file is
empty (zero bytes). -/
def emptyCacheWorld : World := { baseWorld with cacheContents := some "" }

/-- C9 witness: an empty cache file loads as the empty string, and the run
takes the refresh-token grant path with an empty `refresh_token`
parameter. -/
theorem c9_witness :
    load_refresh_token emptyCacheWorld = some "" ∧
    ∃ ps, (mainRun emptyCacheWorld).request = some ps ∧
      List.lookup "grant_type" ps = some "refresh_token" ∧
      List.lookup "refresh_token" ps = some "" :=
  c9_loaded_token_is_exact_file_contents emptyCacheWorld ⟨"id", "secret"⟩ ""
    rfl ⟨_, rfl⟩ rfl rfl

/-- C10: when the exchange succeeded with a new refresh token but saving it
fails (cache path resolution or the write), the error is propagated out of
`save_refresh_token`, printed to standard error, and the run terminates
there — the statements after the save are never reached and the cache file
is unchanged; by contrast, at load time the same cache-path failure is
silently treated as no cached token. -/
theorem c10_save_failure_is_fatal (w : World) (ps : List (String × String))
    (atk rt e : String)
    (hreq : (mainRun w).request = some ps)
    (hok : tokens_from_params w.net ps = .ok (atk, some rt))
    (hsave : save_refresh_token w rt = .error e) :
    (mainRun w).outcome = .saveError e ∧
    (mainRun w).stderr = [e] ∧
    (mainRun w).cacheAfter = w.cacheContents ∧
    (∀ a, (mainRun w).outcome ≠ .reachedTail a) ∧
    (∀ e2, cache_file w = .error e2 → load_refresh_token w = none) := by
  obtain ⟨out, he⟩ := request_inversion w ps hreq
  rw [he]
  refine ⟨?_, ?_, ?_, ?_, ?_⟩
  · simp [mainTail, hok, hsave]
  · simp [mainTail, hok, hsave]
  · simp [mainTail, hok, hsave]
  · intro a
    simp [mainTail, hok, hsave]
  · intro e2 h2
    unfold load_refresh_token
    rw [h2]

/-- A run identical to the successful one except that the write to the
cache file fails. -/
def saveFailWorld : World := { baseWorld with writeOk := false }

/-- C10 witness: with a failing cache write, the run terminates with the
save error `write error` on stderr, the cache keeps its prior contents, and
the statements after the save are never reached. -/
theorem c10_witness :
    (mainRun saveFailWorld).outcome = .saveError "write error" ∧
    (mainRun saveFailWorld).stderr = ["write error"] ∧
    (mainRun saveFailWorld).cacheAfter = saveFailWorld.cacheContents ∧
    (∀ a, (mainRun saveFailWorld).outcome ≠ .reachedTail a) ∧
    (∀ e2, cache_file saveFailWorld = .error e2 →
      load_refresh_token saveFailWorld = none) :=
  c10_save_failure_is_fatal saveFailWorld (refresh_params "rt" "id" "secret")
    "at" "new-rt" "write error" rfl rfl rfl

end Rustyx
